import Mathlib

/-!
Shallow embedding of the iterative retrieval-review-synthesis loop of the
rfp-chat-agent repository (services/rfp_service.py and
models/rfp_conversation.py).  Pure data is translated directly; each external
call (Azure OpenAI chat completion, Azure AI Search) is modelled by passing its
outcome explicitly: `none` / `Except.error` stands for the Python call raising
an exception, `some v` / `Except.ok v` for it returning `v`.  The unbounded
Python `while` loop is modelled with explicit fuel; exhausting the fuel with
the loop condition still true witnesses that the real loop is still running
after that many iterations.
-/

set_option autoImplicit false

namespace RfpChatAgent

/-- One retrieved evidence chunk (services/azure_ai_search_service.py,
`SearchResult`): identifier, pursuit name, source file and chunk content. -/
structure SearchResult where
  chunk_id : String
  pursuit_name : String
  source_file : String
  chunk_content : String
deriving DecidableEq, Repr

/-- Parsed reviewer response (models/rfp_conversation.py, `ReviewDecision`).
`valid_results` / `invalid_results` are lists of indices into the current
result batch; in the Python model they are pydantic `Literal[0..4]` values, so
they are non-negative, which `Nat` captures.  `decision` is the string
`"retry"` or `"finalize"` stored verbatim into `decisions`. -/
structure ReviewDecision where
  thought_process : String
  valid_results : List Nat
  invalid_results : List Nat
  decision : String
deriving DecidableEq, Repr

/-- Conversation state (models/rfp_conversation.py, `RfpConversation`).
`search_history` entries are Python dicts holding only a `"query"` string, so
they are modelled as the query strings themselves; `thought_process` entries
are structured trace records, modelled by their step tag (`"retrieve"`,
`"review"`, `"response"`); `processed_ids` is a Python set of chunk ids,
modelled as a `Finset String`. -/
structure RfpConversation where
  user_query : String
  pursuit_name : Option String
  max_attempts : Nat := 3
  attempts : Nat := 0
  search_history : List String := []
  current_results : List SearchResult := []
  vetted_results : List SearchResult := []
  discarded_results : List SearchResult := []
  processed_ids : Finset String := ∅
  thought_process : List String := []
  reviews : List String := []
  decisions : List String := []
deriving DecidableEq

/-- `RfpConversation.has_sufficient_results`: `"finalize" in self.decisions`. -/
def RfpConversation.has_sufficient_results (c : RfpConversation) : Bool :=
  c.decisions.contains "finalize"

/-- `RfpConversation.should_continue`:
`self.attempts < self.max_attempts and not self.has_sufficient_results()`. -/
def RfpConversation.should_continue (c : RfpConversation) : Bool :=
  decide (c.attempts < c.max_attempts) && !c.has_sufficient_results

/-- `RfpConversation.add_search_attempt`: increments `attempts` and appends
the query to `search_history`. -/
def RfpConversation.add_search_attempt (c : RfpConversation) (query : String) :
    RfpConversation :=
  { c with attempts := c.attempts + 1,
           search_history := c.search_history ++ [query] }

/-- Fresh conversation as built by `RfpService.chat_with_rfp`: every mutable
field starts from its dataclass default. -/
def init_conversation (user_query : String) (pursuit_name : Option String)
    (max_attempts : Nat) : RfpConversation :=
  { user_query := user_query, pursuit_name := pursuit_name,
    max_attempts := max_attempts }

/-- `RfpService.generate_search_query`.  `response` is the outcome of the
`get_chat_response` call inside the `try` block: `some q` when it returns a
`SearchPromptResponse` with `search_query = q`, `none` when it raises.  On
success the query is recorded via `add_search_attempt` and returned; on
failure the `except` branch only logs and returns `conversation.user_query`
as the fallback query, leaving the conversation untouched. -/
def generate_search_query (c : RfpConversation) (response : Option String) :
    RfpConversation × String :=
  match response with
  | some q => (c.add_search_attempt q, q)
  | none => (c, c.user_query)

/-- `RfpService.execute_search`.  `results` is the outcome of
`run_search`: on success `current_results` is set to the returned list and a
`"retrieve"` trace entry is appended; on failure the `except` branch sets
`current_results = []` and appends nothing. -/
def execute_search (c : RfpConversation)
    (results : Option (List SearchResult)) : RfpConversation :=
  match results with
  | some rs =>
      { c with current_results := rs,
               thought_process := c.thought_process ++ ["retrieve"] }
  | none => { c with current_results := [] }

/-- Total list indexing standing for Python `current_results[idx]`; every use
below is guarded by the bound `idx < length`, under which the default is
never produced. -/
def getResult (rs : List SearchResult) (i : Nat) : SearchResult :=
  rs.getD i ⟨"", "", "", ""⟩

/-- `RfpService.review_search_results`.  `response` is the outcome of the
reviewer `get_chat_response` call: `none` when it raises (or when pydantic
rejects the raw response), `some rd` when a `ReviewDecision` is returned.
The whole body sits in one `try`/`except` block.  The function computes the
filtered lists `valid_indices` / `invalid_indices`, but the `review` trace
entry and both mutation loops iterate the UNFILTERED
`review_decision.valid_results` / `invalid_results`; hence when any index is
out of range an `IndexError` is raised while the trace entry is being built,
before any mutation, and the `except` branch leaves the conversation
unchanged — modelled by the `else` branch.  When every index is in range the
step appends the trace entry, the rationale and the decision, appends the
indexed items to `vetted_results` / `discarded_results`, adds their chunk
ids to `processed_ids` one by one, and clears `current_results`. -/
def review_search_results (c : RfpConversation)
    (response : Option ReviewDecision) : RfpConversation :=
  match response with
  | none => c
  | some rd =>
      if (rd.valid_results ++ rd.invalid_results).all
          (fun i => decide (i < c.current_results.length)) then
        { c with
          thought_process := c.thought_process ++ ["review"],
          reviews := c.reviews ++ [rd.thought_process],
          decisions := c.decisions ++ [rd.decision],
          vetted_results := c.vetted_results ++
            rd.valid_results.map (getResult c.current_results),
          discarded_results := c.discarded_results ++
            rd.invalid_results.map (getResult c.current_results),
          processed_ids :=
            ((rd.valid_results ++ rd.invalid_results).map
              (fun i => (getResult c.current_results i).chunk_id)).foldl
              (fun s x => insert x s) c.processed_ids,
          current_results := [] }
      else c

/-- The fixed insufficient-information message returned by
`RfpService.generate_final_answer` when `vetted_results` is empty. -/
def insufficient_info_message : String :=
  "I couldn't find relevant information in the RFP documents to answer your question. Please try rephrasing your question or check if the information exists in the uploaded documents."

/-- `RfpService.generate_final_answer`.  `response` is the outcome of the
synthesis `get_chat_response_text` call.  The returned `Bool` records whether
the model was invoked: when `vetted_results` is empty the function returns
the fixed message before any model call; otherwise it invokes the model and
returns its answer (appending a `"response"` trace entry) or, when the call
raises `e`, the apology message embedding `e`. -/
def generate_final_answer (c : RfpConversation)
    (response : Except String String) : RfpConversation × String × Bool :=
  if c.vetted_results.isEmpty then (c, insufficient_info_message, false)
  else
    match response with
    | Except.ok ans =>
        ({ c with thought_process := c.thought_process ++ ["response"] },
         ans, true)
    | Except.error e =>
        (c, "I encountered an error generating the final answer. Error: " ++ e
              ++ ". Please try rephrasing your question.", true)

/-- Outcomes of the external calls made by iteration `k` of the loop and by
the final synthesis step. -/
structure Env where
  query_responses : Nat → Option String
  search_responses : Nat → Option (List SearchResult)
  review_responses : Nat → Option ReviewDecision
  final_response : Except String String

/-- One iteration of the `while conversation.should_continue()` body in
`RfpService.execute_conversation_workflow`: generate a query, run the
search, review the results.  The generated query string only parametrises
the external search call, whose outcome the environment already fixes. -/
def loop_body (env : Env) (k : Nat) (c : RfpConversation) : RfpConversation :=
  let c1 := (generate_search_query c (env.query_responses k)).1
  let c2 := execute_search c1 (env.search_responses k)
  review_search_results c2 (env.review_responses k)

/-- The `while conversation.should_continue()` loop, run with `fuel`
remaining iterations allowed and `k` iterations already performed.  Returns
the final conversation, the number of iterations executed (equivalently, of
query-generator calls made), and whether the loop condition became false
(`true`) or the fuel ran out with the condition still true (`false`). -/
def run_loop (env : Env) : Nat → Nat → RfpConversation →
    RfpConversation × Nat × Bool
  | fuel, k, c =>
    if c.should_continue then
      match fuel with
      | 0 => (c, 0, false)
      | Nat.succ f =>
          let r := run_loop env f (k + 1) (loop_body env k c)
          (r.1, r.2.1 + 1, r.2.2)
    else (c, 0, true)

/-- `RfpService.execute_conversation_workflow`: run the loop, then synthesise
the final answer from the vetted results.  Returns the final conversation,
the answer, and whether the synthesis model was invoked. -/
def execute_conversation_workflow (env : Env) (fuel : Nat)
    (c : RfpConversation) : RfpConversation × String × Bool :=
  let r := run_loop env fuel 0 c
  generate_final_answer r.1 env.final_response

/-! Concrete fixtures used by counterexamples and witnesses. -/

/-- A first sample evidence chunk. -/
def r0 : SearchResult := ⟨"id0", "pursuitA", "file0.pdf", "content zero"⟩

/-- A second sample evidence chunk. -/
def r1 : SearchResult := ⟨"id1", "pursuitA", "file1.pdf", "content one"⟩

/-- A fresh conversation with the production bound `MAX_ATTEMPTS = 3`. -/
def fresh_conversation : RfpConversation := init_conversation "q" none 3

/-- Environment in which every external call raises. -/
def all_fail_env : Env :=
  { query_responses := fun _ => none,
    search_responses := fun _ => none,
    review_responses := fun _ => none,
    final_response := Except.error "model failure" }

/-- Helper: folding `insert` over a list of ids extends the set by exactly
the elements of the list. -/
theorem foldl_insert_eq_union (l : List String) (s : Finset String) :
    l.foldl (fun t x => insert x t) s = s ∪ l.toFinset := by
  induction l generalizing s with
  | nil => simp
  | cons x xs ih =>
      rw [List.foldl_cons, ih]
      ext a
      simp [or_comm, or_left_comm]

/-- Helper: when every external call fails, one loop iteration is the
identity on a fresh conversation (fallback query recorded nowhere, search
failure resets the already-empty `current_results`, review failure changes
nothing). -/
theorem loop_body_all_fail (k : Nat) :
    loop_body all_fail_env k fresh_conversation = fresh_conversation := rfl

/-- Helper: when every external call fails, the loop consumes all its fuel
without ever making progress or exiting. -/
theorem run_loop_all_fail (fuel k : Nat) :
    run_loop all_fail_env fuel k fresh_conversation =
      (fresh_conversation, fuel, false) := by
  induction fuel generalizing k with
  | zero => rfl
  | succ f ih =>
      show run_loop all_fail_env (f + 1) k fresh_conversation = _
      rw [run_loop]
      have hc : fresh_conversation.should_continue = true := rfl
      rw [hc]
      simp [loop_body_all_fail, ih (k + 1)]

/-- A conversation holding two unreviewed results. -/
def two_result_conversation : RfpConversation :=
  { fresh_conversation with current_results := [r0, r1] }

/-- A reviewer response containing the out-of-range index 2 for a batch of
length 2 (within pydantic's `Literal[0..4]` bound, so it reaches the body of
`review_search_results`). -/
def out_of_range_review : ReviewDecision :=
  ⟨"chunks 0 and 1 look relevant", [0, 1, 2], [], "retry"⟩

/-- C1: the claim says that out-of-range reviewer indices are dropped with a
warning while exactly the in-range indices are moved into
`vetted_results`/`processed_ids`.  The code instead iterates the unfiltered
index lists (the filtered `valid_indices`/`invalid_indices` are computed but
never used), so the out-of-range index 2 raises an `IndexError` while the
`review` trace entry is built, the surrounding `except` swallows it, and the
step performs NO state change at all: with `current_results = [r0, r1]` and
`valid_results = [0, 1, 2]`, nothing is vetted, no id is processed, no
review or decision is recorded, and `current_results` is not even cleared. -/
theorem review_out_of_range_skips_all_mutation :
    review_search_results two_result_conversation (some out_of_range_review) =
      two_result_conversation ∧
    (review_search_results two_result_conversation
      (some out_of_range_review)).vetted_results = [] ∧
    (review_search_results two_result_conversation
      (some out_of_range_review)).processed_ids = ∅ ∧
    (review_search_results two_result_conversation
      (some out_of_range_review)).reviews = [] := by
  refine ⟨rfl, rfl, rfl, rfl⟩

/-- C2: the claim says the loop executes at most `max_attempts` iterations
and always terminates, however many external calls fail.  When the
query-generation model call raises on every iteration, the `except` branch
of `generate_search_query` returns the fallback query without calling
`add_search_attempt`, so `attempts` stays 0 and `should_continue` stays
true: for every fuel bound `fuel`, the loop has executed `fuel` iterations
(far beyond `max_attempts = 3`) and its condition has still not become
false — the `while` loop never terminates. -/
theorem loop_unbounded_when_query_generation_fails (fuel k : Nat) :
    run_loop all_fail_env fuel k fresh_conversation =
      (fresh_conversation, fuel, false) := by
  exact run_loop_all_fail fuel k

/-- C3: the claim says the produced query is appended to `search_history`
and `attempts` is incremented exactly once per call, including on the
fallback path.  On the fallback path (model call raised) the code returns
`user_query` but leaves `attempts` and `search_history` unchanged. -/
theorem fallback_query_not_recorded :
    (generate_search_query fresh_conversation none).2 = "q" ∧
    (generate_search_query fresh_conversation none).1.attempts = 0 ∧
    (generate_search_query fresh_conversation none).1.search_history = [] := by
  refine ⟨rfl, rfl, rfl⟩

/-- C6: the claim says every external-call failure is converted to a
degraded local outcome so that the controller always reaches the finalizing
step and returns a result.  Exception containment holds, but under
persistent query-generation failure the loop condition never becomes false:
after every number of iterations the loop is still in the searching state,
so the controller never reaches the finalizing step. -/
theorem controller_never_finalizes_under_total_failure (fuel : Nat) :
    (run_loop all_fail_env fuel 0 fresh_conversation).2.2 = false ∧
    (run_loop all_fail_env fuel 0 fresh_conversation).1.should_continue =
      true := by
  rw [run_loop_all_fail]
  exact ⟨rfl, rfl⟩

/-- The §3 invariant: `processed_ids` is exactly the set of chunk ids of
`vetted_results ∪ discarded_results`. -/
def processed_ids_invariant (c : RfpConversation) : Prop :=
  c.processed_ids =
    (c.vetted_results.map SearchResult.chunk_id).toFinset ∪
    (c.discarded_results.map SearchResult.chunk_id).toFinset

instance (c : RfpConversation) : Decidable (processed_ids_invariant c) := by
  unfold processed_ids_invariant
  infer_instance

/-- Helper: query generation never touches the result buckets. -/
theorem generate_preserves_invariant (c : RfpConversation)
    (qr : Option String) (h : processed_ids_invariant c) :
    processed_ids_invariant (generate_search_query c qr).1 := by
  cases qr <;> exact h

/-- Helper: retrieval never touches the result buckets. -/
theorem search_preserves_invariant (c : RfpConversation)
    (sr : Option (List SearchResult)) (h : processed_ids_invariant c) :
    processed_ids_invariant (execute_search c sr) := by
  cases sr <;> exact h

/-- Helper: the review step adds a chunk id to `processed_ids` exactly when
it appends the corresponding item to a bucket, so the invariant survives. -/
theorem review_preserves_invariant (c : RfpConversation)
    (rr : Option ReviewDecision) (h : processed_ids_invariant c) :
    processed_ids_invariant (review_search_results c rr) := by
  cases rr with
  | none => exact h
  | some rd =>
      simp only [review_search_results]
      by_cases hg : (rd.valid_results ++ rd.invalid_results).all
          (fun i => decide (i < c.current_results.length)) = true
      · rw [if_pos hg]
        unfold processed_ids_invariant at h ⊢
        simp only [foldl_insert_eq_union, h, List.map_append, List.map_map,
          List.toFinset_append, Function.comp_def]
        exact Finset.union_union_union_comm _ _ _ _
      · rw [if_neg hg]
        exact h

/-- Helper: answer synthesis never touches the result buckets. -/
theorem final_preserves_invariant (c : RfpConversation)
    (fr : Except String String) (h : processed_ids_invariant c) :
    processed_ids_invariant (generate_final_answer c fr).1 := by
  unfold generate_final_answer
  split
  · exact h
  · cases fr <;> exact h

/-- Helper: one loop iteration preserves the invariant. -/
theorem loop_body_preserves_invariant (env : Env) (k : Nat)
    (c : RfpConversation) (h : processed_ids_invariant c) :
    processed_ids_invariant (loop_body env k c) :=
  review_preserves_invariant _ _
    (search_preserves_invariant _ _ (generate_preserves_invariant _ _ h))

/-- Helper: any run of the loop preserves the invariant. -/
theorem run_loop_preserves_invariant (env : Env) (fuel k : Nat)
    (c : RfpConversation) (h : processed_ids_invariant c) :
    processed_ids_invariant (run_loop env fuel k c).1 := by
  induction fuel generalizing k c with
  | zero =>
      rw [run_loop]
      split
      · exact h
      · exact h
  | succ f ih =>
      rw [run_loop]
      split
      · exact ih (k + 1) _ (loop_body_preserves_invariant env k c h)
      · exact h

/-- C4: after any completed review step (and across every other loop
operation), `processed_ids` equals exactly the set of chunk identifiers of
the items in `vetted_results` together with `discarded_results`: the
equality is preserved by query generation, retrieval, review, synthesis,
and hence by any number of loop iterations. -/
theorem processed_ids_exactly_vetted_union_discarded
    (env : Env) (fuel k : Nat) (c : RfpConversation)
    (qr : Option String) (sr : Option (List SearchResult))
    (rr : Option ReviewDecision) (fr : Except String String)
    (h : processed_ids_invariant c) :
    processed_ids_invariant (generate_search_query c qr).1 ∧
    processed_ids_invariant (execute_search c sr) ∧
    processed_ids_invariant (review_search_results c rr) ∧
    processed_ids_invariant (generate_final_answer c fr).1 ∧
    processed_ids_invariant (run_loop env fuel k c).1 :=
  ⟨generate_preserves_invariant c qr h,
   search_preserves_invariant c sr h,
   review_preserves_invariant c rr h,
   final_preserves_invariant c fr h,
   run_loop_preserves_invariant env fuel k c h⟩

/-- Witness for C4 at a concrete conversation and environment. -/
theorem processed_ids_exactly_vetted_union_discarded_witness :
    processed_ids_invariant fresh_conversation ∧
    processed_ids_invariant (run_loop all_fail_env 2 0 fresh_conversation).1 :=
  ⟨by decide,
   (processed_ids_exactly_vetted_union_discarded all_fail_env 2 0
      fresh_conversation none none none (Except.error "e")
      (by decide)).2.2.2.2⟩

/-- C5: once `"finalize"` appears anywhere in `decisions`, `should_continue`
is false, so the loop performs no further iterations (hence no further
query-generator calls), even when `attempts < max_attempts`: the stop
condition is finalize-ever-seen, not finalize-on-the-most-recent-step. -/
theorem finalize_ever_seen_stops_loop (env : Env) (fuel k : Nat)
    (c : RfpConversation) (h : "finalize" ∈ c.decisions) :
    run_loop env fuel k c = (c, 0, true) := by
  have hc : c.should_continue = false := by
    simp [RfpConversation.should_continue,
      RfpConversation.has_sufficient_results, h]
  cases fuel with
  | zero => rw [run_loop]; simp [hc]
  | succ f => rw [run_loop]; simp [hc]

/-- A conversation whose reviewer finalized on the second step while the
attempt budget is not exhausted. -/
def finalized_conversation : RfpConversation :=
  { fresh_conversation with decisions := ["retry", "finalize"], attempts := 2 }

/-- Witness for C5: `attempts = 2 < 3 = max_attempts`, yet the loop stops
immediately with zero further iterations. -/
theorem finalize_ever_seen_stops_loop_witness :
    finalized_conversation.attempts < finalized_conversation.max_attempts ∧
    run_loop all_fail_env 5 0 finalized_conversation =
      (finalized_conversation, 0, true) :=
  ⟨by decide,
   finalize_ever_seen_stops_loop all_fail_env 5 0 finalized_conversation
     (by simp [finalized_conversation])⟩

/-- C7: when the reviewer model call fails entirely, the review step is the
identity on the review state — `reviews`, `decisions`, `vetted_results`,
`discarded_results` and `processed_ids` are all unchanged — and the loop
re-evaluates `should_continue` on the unchanged (prior) decisions. -/
theorem review_model_failure_is_atomic (c : RfpConversation) :
    (review_search_results c none).reviews = c.reviews ∧
    (review_search_results c none).decisions = c.decisions ∧
    (review_search_results c none).vetted_results = c.vetted_results ∧
    (review_search_results c none).discarded_results = c.discarded_results ∧
    (review_search_results c none).processed_ids = c.processed_ids ∧
    (review_search_results c none).should_continue = c.should_continue :=
  ⟨rfl, rfl, rfl, rfl, rfl, rfl⟩

/-- Environment in which the query-generation model call raises (so the
fallback query is used) while retrieval returns one chunk and the reviewer
model call succeeds with a `"retry"` decision. -/
def fallback_then_review_env : Env :=
  { query_responses := fun _ => none,
    search_responses := fun _ => some [r0],
    review_responses := fun _ => some ⟨"chunk 0 is relevant", [0], [], "retry"⟩,
    final_response := Except.error "model failure" }

/-- C8: the claim says `len(reviews) = len(decisions)` and both are at most
`attempts`.  The equal-lengths part holds, but after one iteration in which
query generation falls back (not incrementing `attempts`) while the review
succeeds, `reviews` and `decisions` have length 1 with `attempts = 0`,
violating the bound. -/
theorem reviews_outnumber_attempts_after_fallback :
    (run_loop fallback_then_review_env 1 0 fresh_conversation).1.reviews.length
      = 1 ∧
    (run_loop fallback_then_review_env 1 0
      fresh_conversation).1.decisions.length = 1 ∧
    (run_loop fallback_then_review_env 1 0 fresh_conversation).1.attempts
      = 0 := by
  refine ⟨rfl, rfl, rfl⟩

/-- C9: with `max_attempts = 0` the predicate `attempts < max_attempts` is
false from the start, so the loop performs zero iterations, and the
synthesizer — invoked once on the empty `vetted_results` — returns the fixed
insufficient-information message without invoking the model. -/
theorem zero_max_attempts_immediate_fixed_answer (env : Env) (fuel : Nat)
    (c : RfpConversation) (hmax : c.max_attempts = 0)
    (hvet : c.vetted_results = []) :
    run_loop env fuel 0 c = (c, 0, true) ∧
    execute_conversation_workflow env fuel c =
      (c, insufficient_info_message, false) := by
  have hc : c.should_continue = false := by
    simp [RfpConversation.should_continue, hmax]
  have hloop : run_loop env fuel 0 c = (c, 0, true) := by
    cases fuel with
    | zero => rw [run_loop]; simp [hc]
    | succ f => rw [run_loop]; simp [hc]
  refine ⟨hloop, ?_⟩
  unfold execute_conversation_workflow
  rw [hloop]
  simp [generate_final_answer, hvet]

/-- A fresh conversation whose attempt budget is zero. -/
def zero_attempt_conversation : RfpConversation := init_conversation "q" none 0

/-- Witness for C9 at a concrete conversation and environment. -/
theorem zero_max_attempts_immediate_fixed_answer_witness :
    execute_conversation_workflow all_fail_env 4 zero_attempt_conversation =
      (zero_attempt_conversation, insufficient_info_message, false) :=
  (zero_max_attempts_immediate_fixed_answer all_fail_env 4
    zero_attempt_conversation rfl rfl).2

/-- C10: within one review step whose indices are all in range, the code
appends the indexed item once per occurrence of its index in each list —
without deduplication or a disjointness check between the valid and invalid
lists — while `processed_ids`, being a set, gains each chunk id only once;
in particular an index occurring in both lists lands its item in both
`vetted_results` and `discarded_results`. -/
theorem duplicate_review_indices_duplicate_list_entries
    (c : RfpConversation) (rd : ReviewDecision) (i : Nat)
    (hall : ∀ j ∈ rd.valid_results ++ rd.invalid_results,
      j < c.current_results.length)
    (hv : i ∈ rd.valid_results) (hi : i ∈ rd.invalid_results) :
    (review_search_results c (some rd)).vetted_results =
      c.vetted_results ++ rd.valid_results.map (getResult c.current_results) ∧
    (review_search_results c (some rd)).discarded_results =
      c.discarded_results ++
        rd.invalid_results.map (getResult c.current_results) ∧
    getResult c.current_results i ∈
      (review_search_results c (some rd)).vetted_results ∧
    getResult c.current_results i ∈
      (review_search_results c (some rd)).discarded_results ∧
    (getResult c.current_results i).chunk_id ∈
      (review_search_results c (some rd)).processed_ids := by
  have hg : (rd.valid_results ++ rd.invalid_results).all
      (fun j => decide (j < c.current_results.length)) = true := by
    rw [List.all_eq_true]
    intro j hj
    exact decide_eq_true (hall j hj)
  simp only [review_search_results, if_pos hg]
  refine ⟨trivial, trivial, ?_, ?_, ?_⟩
  · exact List.mem_append_right _ (List.mem_map_of_mem _ hv)
  · exact List.mem_append_right _ (List.mem_map_of_mem _ hi)
  · rw [foldl_insert_eq_union]
    refine Finset.mem_union_right _ ?_
    rw [List.mem_toFinset]
    exact List.mem_map_of_mem _ (List.mem_append_left _ hv)

/-- A reviewer response repeating the in-range index 0 inside
`valid_results` and also listing it in `invalid_results`. -/
def duplicate_review : ReviewDecision :=
  ⟨"chunk zero, twice over", [0, 0], [0], "retry"⟩

/-- Witness for C10 at a concrete conversation and reviewer response. -/
theorem duplicate_review_indices_duplicate_list_entries_witness :
    (0 ∈ duplicate_review.valid_results ∧ 0 ∈ duplicate_review.invalid_results) ∧
    getResult two_result_conversation.current_results 0 ∈
      (review_search_results two_result_conversation
        (some duplicate_review)).vetted_results ∧
    getResult two_result_conversation.current_results 0 ∈
      (review_search_results two_result_conversation
        (some duplicate_review)).discarded_results :=
  ⟨⟨by decide, by decide⟩,
   (duplicate_review_indices_duplicate_list_entries two_result_conversation
      duplicate_review 0 (by decide) (by decide) (by decide)).2.2.1,
   (duplicate_review_indices_duplicate_list_entries two_result_conversation
      duplicate_review 0 (by decide) (by decide) (by decide)).2.2.2.1⟩

end RfpChatAgent
